import Mathlib

/-!
# magsli: webhook verification and translation pipeline

A shallow embedding of `mailgundata/mailgundata.go` and `handler.go`.

* Go byte sequences and the strings of the signature are lists of naturals, every byte
  being a natural below 256 (`Bytes`).
* A Go `error` value is a value of `Error`; a nil error is `none`.
* The standard-library routines the code calls (`crypto/sha256`, `crypto/hmac`,
  `crypto/subtle`, `encoding/hex`) are embedded from their definitions.
* `encoding/json` and the event shapes of `mailgun-go` are passed in as a parameter
  (`Json`); the handler's collaborators are the fields of `Env`.
-/

namespace Magsli

set_option linter.dupNamespace false

/-! ## Bytes and errors -/

/-- Go `[]byte` and `string`: a sequence of bytes, each a natural below 256. -/
abbrev Bytes := List Nat

/-- The bytes of an ASCII string literal. -/
def ascii (s : String) : Bytes := s.toList.map Char.toNat

/-- Go `error` values that occur in the program. `none : Option Error` is the nil error. -/
inductive Error where
  /-- an error returned by `io.WriteString` -/
  | write
  /-- `hex.InvalidByteError(b)` -/
  | InvalidByteError (b : Nat)
  /-- `hex.ErrLength` -/
  | ErrLength
  /-- an error returned by `encoding/json` -/
  | json (msg : String)
  /-- `mailgundata.ErrUnrecognizedEvent` -/
  | ErrUnrecognizedEvent
  /-- `mailgundata.ErrParseEvent{Name, Err}` -/
  | ErrParseEvent (Name : String) (Err : Error)
  /-- an error returned by `slack.Message.Send` -/
  | send (msg : String)
deriving DecidableEq, Repr

deriving instance DecidableEq for Except

/-! ## crypto/sha256 -/

/-- SHA-256 round constants. -/
def sha256K : List Nat :=
  [0x428A2F98, 0x71374491, 0xB5C0FBCF, 0xE9B5DBA5, 0x3956C25B, 0x59F111F1, 0x923F82A4, 0xAB1C5ED5,
   0xD807AA98, 0x12835B01, 0x243185BE, 0x550C7DC3, 0x72BE5D74, 0x80DEB1FE, 0x9BDC06A7, 0xC19BF174,
   0xE49B69C1, 0xEFBE4786, 0x0FC19DC6, 0x240CA1CC, 0x2DE92C6F, 0x4A7484AA, 0x5CB0A9DC, 0x76F988DA,
   0x983E5152, 0xA831C66D, 0xB00327C8, 0xBF597FC7, 0xC6E00BF3, 0xD5A79147, 0x06CA6351, 0x14292967,
   0x27B70A85, 0x2E1B2138, 0x4D2C6DFC, 0x53380D13, 0x650A7354, 0x766A0ABB, 0x81C2C92E, 0x92722C85,
   0xA2BFE8A1, 0xA81A664B, 0xC24B8B70, 0xC76C51A3, 0xD192E819, 0xD6990624, 0xF40E3585, 0x106AA070,
   0x19A4C116, 0x1E376C08, 0x2748774C, 0x34B0BCB5, 0x391C0CB3, 0x4ED8AA4A, 0x5B9CCA4F, 0x682E6FF3,
   0x748F82EE, 0x78A5636F, 0x84C87814, 0x8CC70208, 0x90BEFFFA, 0xA4506CEB, 0xBEF9A3F7, 0xC67178F2]

/-- Addition of `uint32` values. -/
def add32 (a b : Nat) : Nat := (a + b) % 2 ^ 32

/-- Rotation of a `uint32` to the right by `n` bits. -/
def rotr32 (x n : Nat) : Nat := ((x >>> n) ||| (x <<< (32 - n))) % 2 ^ 32

/-- Bitwise complement of a `uint32`. -/
def not32 (x : Nat) : Nat := (2 ^ 32 - 1) ^^^ (x % 2 ^ 32)

def bigSigma0 (x : Nat) : Nat := rotr32 x 2 ^^^ rotr32 x 13 ^^^ rotr32 x 22

def bigSigma1 (x : Nat) : Nat := rotr32 x 6 ^^^ rotr32 x 11 ^^^ rotr32 x 25

def smallSigma0 (x : Nat) : Nat := rotr32 x 7 ^^^ rotr32 x 18 ^^^ (x >>> 3)

def smallSigma1 (x : Nat) : Nat := rotr32 x 17 ^^^ rotr32 x 19 ^^^ (x >>> 10)

def ch (x y z : Nat) : Nat := (x &&& y) ^^^ (not32 x &&& z)

def maj (x y z : Nat) : Nat := (x &&& y) ^^^ (x &&& z) ^^^ (y &&& z)

/-- Big-endian 32-bit words of a byte sequence, four bytes to a word. -/
def wordsOfBytes : Bytes → List Nat
  | b0 :: b1 :: b2 :: b3 :: rest =>
      (b0 * 2 ^ 24 + b1 * 2 ^ 16 + b2 * 2 ^ 8 + b3) :: wordsOfBytes rest
  | _ => []

/-- Big-endian bytes of a 32-bit word. -/
def bytesOfWord (w : Nat) : Bytes :=
  [(w >>> 24) % 256, (w >>> 16) % 256, (w >>> 8) % 256, w % 256]

/-- Message schedule: the `n` words that follow the 16-word window `win`. -/
def schedule : Nat → List Nat → List Nat
  | 0, _ => []
  | n + 1, win =>
      let w := add32 (add32 (smallSigma1 (win.getD 14 0)) (win.getD 9 0))
                 (add32 (smallSigma0 (win.getD 1 0)) (win.getD 0 0))
      w :: schedule n (win.drop 1 ++ [w])

/-- The eight working variables of SHA-256. -/
structure ShaState where
  a : Nat
  b : Nat
  c : Nat
  d : Nat
  e : Nat
  f : Nat
  g : Nat
  h : Nat
deriving DecidableEq, Repr

/-- One round of the compression function, with round constant `k` and schedule word `w`. -/
def shaRound (s : ShaState) (k w : Nat) : ShaState :=
  let t1 := add32 (add32 (add32 (add32 s.h (bigSigma1 s.e)) (ch s.e s.f s.g)) k) w
  let t2 := add32 (bigSigma0 s.a) (maj s.a s.b s.c)
  { a := add32 t1 t2, b := s.a, c := s.b, d := s.c, e := add32 s.d t1, f := s.e, g := s.f,
    h := s.g }

def shaRounds : ShaState → List Nat → List Nat → ShaState
  | s, k :: ks, w :: ws => shaRounds (shaRound s k w) ks ws
  | s, _, _ => s

/-- The compression function on one 64-byte block. -/
def compress (hs : ShaState) (block : Bytes) : ShaState :=
  let w16 := wordsOfBytes block
  let s := shaRounds hs sha256K (w16 ++ schedule 48 w16)
  { a := add32 hs.a s.a, b := add32 hs.b s.b, c := add32 hs.c s.c, d := add32 hs.d s.d,
    e := add32 hs.e s.e, f := add32 hs.f s.f, g := add32 hs.g s.g, h := add32 hs.h s.h }

/-- The `n` low bytes of `x`, big-endian. -/
def beBytes : Nat → Nat → Bytes
  | 0, _ => []
  | n + 1, x => beBytes n (x / 256) ++ [x % 256]

/-- SHA-256 padding: a `0x80` byte, zeros, and the bit length in 8 bytes. -/
def shaPad (msg : Bytes) : Bytes :=
  msg ++ [0x80] ++ List.replicate ((119 - msg.length % 64) % 64) 0 ++ beBytes 8 (8 * msg.length)

def shaBlocks : Nat → ShaState → Bytes → ShaState
  | 0, s, _ => s
  | n + 1, s, data => shaBlocks n (compress s (data.take 64)) (data.drop 64)

/-- Function `sha256.Sum256`: the 32-byte SHA-256 digest. -/
def sha256 (msg : Bytes) : Bytes :=
  let p := shaPad msg
  let s := shaBlocks (p.length / 64)
    ⟨0x6a09e667, 0xbb67ae85, 0x3c6ef372, 0xa54ff53a,
     0x510e527f, 0x9b05688c, 0x1f83d9ab, 0x5be0cd19⟩ p
  bytesOfWord s.a ++ bytesOfWord s.b ++ bytesOfWord s.c ++ bytesOfWord s.d ++
  bytesOfWord s.e ++ bytesOfWord s.f ++ bytesOfWord s.g ++ bytesOfWord s.h

/-! ## crypto/hmac -/

/-- The key of `hmac.New`, hashed when longer than a block and padded with zeros to 64 bytes. -/
def hmacKeyBlock (key : Bytes) : Bytes :=
  let k := if key.length > 64 then sha256 key else key
  k ++ List.replicate (64 - k.length) 0

/-- HMAC-SHA256 of `msg` under `key`. -/
def hmacSHA256 (key msg : Bytes) : Bytes :=
  let k := hmacKeyBlock key
  sha256 (k.map (· ^^^ 0x5c) ++ sha256 (k.map (· ^^^ 0x36) ++ msg))

/-- The running state of `hmac.New(sha256.New, key)`: the key and the bytes written so far. -/
structure Hmac where
  key : Bytes
  written : Bytes
deriving DecidableEq, Repr

/-- Function `hmac.New(sha256.New, key)`. -/
def hmacNew (key : Bytes) : Hmac := { key := key, written := [] }

/-- Function `io.WriteString(h, s)` on a hash: appends `s`; a hash never returns an error. -/
def WriteString (h : Hmac) (s : Bytes) : Hmac × Nat × Option Error :=
  ({ h with written := h.written ++ s }, s.length, none)

/-- Method `h.Sum(b)`: appends the MAC of everything written to `b`. -/
def Hmac.Sum (h : Hmac) (b : Bytes) : Bytes := b ++ hmacSHA256 h.key h.written

/-! ## encoding/hex -/

/-- The table `hextable = "0123456789abcdef"`. -/
def hextable : Bytes := ascii "0123456789abcdef"

/-- Function `hex.EncodeToString`: two lower-case hex digits per byte. -/
def EncodeToString : Bytes → Bytes
  | [] => []
  | v :: rest => hextable.getD (v >>> 4) 0 :: hextable.getD (v &&& 0x0f) 0 :: EncodeToString rest

/-- The value of a hex digit, `none` for a byte that is not one (`reverseHexTable`). -/
def fromHexChar (c : Nat) : Option Nat :=
  if 48 ≤ c ∧ c ≤ 57 then some (c - 48)
  else if 97 ≤ c ∧ c ≤ 102 then some (c - 97 + 10)
  else if 65 ≤ c ∧ c ≤ 70 then some (c - 65 + 10)
  else none

/-- Function `hex.DecodeString`: pairs of hex digits are decoded left to right; the first
invalid byte gives `InvalidByteError`, and a trailing single valid digit gives `ErrLength`. -/
def DecodeString : Bytes → Except Error Bytes
  | [] => .ok []
  | [p] =>
      match fromHexChar p with
      | none => .error (.InvalidByteError p)
      | some _ => .error .ErrLength
  | p :: q :: rest =>
      match fromHexChar p with
      | none => .error (.InvalidByteError p)
      | some a =>
        match fromHexChar q with
        | none => .error (.InvalidByteError q)
        | some b =>
          match DecodeString rest with
          | .error e => .error e
          | .ok bs => .ok (((a <<< 4) ||| b) :: bs)

/-! ## crypto/subtle -/

/-- Function `subtle.ConstantTimeByteEq`: `int((uint32(x^y) - 1) >> 31)`. -/
def ConstantTimeByteEq (x y : Nat) : Nat :=
  ((((x ^^^ y) % 2 ^ 32) + 2 ^ 32 - 1) % 2 ^ 32) >>> 31

/-- The loop of `ConstantTimeCompare`: `v |= x[i] ^ y[i]` over all positions. -/
def xorFold : Nat → Bytes → Bytes → Nat
  | v, a :: x, b :: y => xorFold (v ||| (a ^^^ b)) x y
  | v, _, _ => v

/-- Function `subtle.ConstantTimeCompare`. -/
def ConstantTimeCompare (x y : Bytes) : Nat :=
  if x.length ≠ y.length then 0
  else ConstantTimeByteEq (xorFold 0 x y) 0

/-! ## mailgundata -/

/-- Signature is the signature data from the webhook POST. -/
structure Signature where
  TimeStamp : Bytes
  Token : Bytes
  Signature : Bytes
deriving DecidableEq, Repr

/-- VerifyWebhookSignature verifies the signature coming from the MailGun API.
The result is the pair `(verified, err)`. -/
def VerifyWebhookSignature (apiKey : Bytes) (sig : Signature) : Bool × Option Error :=
  let h := hmacNew apiKey
  match WriteString h sig.TimeStamp with
  | (_, _, some err) => (false, some err)
  | (h, _, none) =>
    match WriteString h sig.Token with
    | (_, _, some err) => (false, some err)
    | (h, _, none) =>
      let calculatedSignature := h.Sum []
      match DecodeString sig.Signature with
      | .error err => (false, some err)
      | .ok signature =>
        if calculatedSignature.length ≠ signature.length then (false, none)
        else (ConstantTimeCompare signature calculatedSignature == 1, none)

/-! ## events (mailgun-go) and encoding/json

Only the fields of the event shapes that the program reads are kept. -/

/-- Type `events.EventName`: the discriminant of an event, the JSON field `event`. -/
structure EventName where
  Name : String
deriving DecidableEq, Repr

/-- Function `strings.ToLower`, as far as the ASCII letters go. -/
def ToLower (s : String) : String := String.mk (s.toList.map Char.toLower)

/-- Method `GetName` of `events.EventName`: `strings.ToLower(e.Name)`. -/
def EventName.GetName (e : EventName) : String := ToLower e.Name

/-- Type `events.MessageHeaders`. -/
structure MessageHeaders where
  To : String
  Subject : String
deriving DecidableEq, Repr

/-- Type `events.Message`. -/
structure EventMessage where
  Headers : MessageHeaders
deriving DecidableEq, Repr

/-- The `Reject` member of `events.Rejected`. -/
structure RejectInfo where
  Reason : String
  Description : String
deriving DecidableEq, Repr

/-- Type `events.DeliveryStatus`. -/
structure DeliveryStatusInfo where
  Message : String
deriving DecidableEq, Repr

/-- Type `events.Rejected`. -/
structure Rejected where
  ID : String
  Reject : RejectInfo
  Message : EventMessage
deriving DecidableEq, Repr

/-- Type `events.Failed`. -/
structure Failed where
  ID : String
  Recipient : String
  Message : EventMessage
  Severity : String
  DeliveryStatus : DeliveryStatusInfo
  Reason : String
deriving DecidableEq, Repr

/-- Payload is the body of the webhook POST. -/
structure Payload where
  Signature : Signature
  EventData : Bytes
deriving DecidableEq, Repr

/-- The calls of `encoding/json` the program makes, each with the type it decodes into:
the result is the decoded value, or the error that `json` returned. -/
structure Json where
  /-- the call `json.NewDecoder(r.Body).Decode(&payload)` -/
  DecodePayload : Bytes → Except Error Payload
  /-- the call `json.Unmarshal(raw, &eventName)` -/
  UnmarshalEventName : Bytes → Except Error EventName
  /-- the call `json.Unmarshal(raw, &event)` with `event` an `events.Rejected` -/
  UnmarshalRejected : Bytes → Except Error Rejected
  /-- the call `json.Unmarshal(raw, &event)` with `event` an `events.Failed` -/
  UnmarshalFailed : Bytes → Except Error Failed

/-- Data defines the fields from MailGun that are used for the Slack message.
A nil pointer is `none`. -/
structure Data where
  EventType : String
  RejectedEvent : Option Rejected
  FailedEvent : Option Failed
deriving DecidableEq, Repr

/-- The zero value `Data{}`. -/
def Data.zero : Data := { EventType := "", RejectedEvent := none, FailedEvent := none }

/-- NewMailGunData converts raw bytes into a Data struct. The result is the pair
`(data, err)`. -/
def NewMailGunData (json : Json) (raw : Bytes) : Data × Option Error :=
  match json.UnmarshalEventName raw with
  | .error _ => (Data.zero, some .ErrUnrecognizedEvent)
  | .ok eventName =>
    let data : Data := { EventType := eventName.Name, RejectedEvent := none, FailedEvent := none }
    if eventName.Name = "rejected" then
      match json.UnmarshalRejected raw with
      | .error err => (Data.zero, some (.ErrParseEvent eventName.GetName err))
      | .ok event => ({ data with RejectedEvent := some event }, none)
    else if eventName.Name = "failed" then
      match json.UnmarshalFailed raw with
      | .error err => (Data.zero, some (.ErrParseEvent eventName.GetName err))
      | .ok event => ({ data with FailedEvent := some event }, none)
    else
      (data, none)

/-! ## slack -/

/-- Whether a field of a message was added by `AddError` or by `AddData`. -/
inductive FieldKind where
  | error
  | data
deriving DecidableEq, Repr

/-- Modelled from the spec: the type of a field of `slack.Message` (package `slack` is not
part of the sources at hand), a NotificationField `{label, value, required}` together with
the call that added it. -/
structure Field where
  kind : FieldKind
  label : String
  value : String
  required : Bool
deriving DecidableEq, Repr

/-- Modelled from the spec: the type `slack.Message`, a NotificationMessage: a title and
the fields in the order in which they were added. -/
structure Message where
  title : String
  fields : List Field
deriving DecidableEq, Repr

/-- Modelled from the spec: the function `slack.NewMessage`, a message with the given title
and no field. -/
def NewMessage (title : String) : Message := { title := title, fields := [] }

/-- Modelled from the spec: the method `AddError` of `slack.Message`, which adds an error
field; the field is marked and never dropped here. -/
def Message.AddError (msg : Message) (label value : String) (required : Bool) : Message :=
  { msg with fields := msg.fields ++ [{ kind := .error, label := label, value := value,
                                        required := required }] }

/-- Modelled from the spec: the method `AddData` of `slack.Message`, which adds a data
field; the field is marked and never dropped here. -/
def Message.AddData (msg : Message) (label value : String) (required : Bool) : Message :=
  { msg with fields := msg.fields ++ [{ kind := .data, label := label, value := value,
                                        required := required }] }

/-- The error fields of a message, in order. -/
def Message.errorFields (msg : Message) : List Field :=
  msg.fields.filter (fun f => f.kind = .error)

/-- The data fields of a message, in order. -/
def Message.dataFields (msg : Message) : List Field :=
  msg.fields.filter (fun f => f.kind = .data)

/-! ## handler -/

/-- The message for a decoded event; `none` is the run-time panic of a nil pointer
dereference. -/
def newSlackMessageFromMailGunData (d : Data) : Option Message :=
  let msg := NewMessage "MailGun Error"
  let msg := msg.AddError "Event" d.EventType true
  if d.EventType = "rejected" then
    match d.RejectedEvent with
    | none => none
    | some ev =>
      let msg := msg.AddData "Message ID" ev.ID true
      let msg := msg.AddData "Subject" ev.Message.Headers.Subject true
      let msg := msg.AddData "To" ev.Message.Headers.To true
      let msg := msg.AddData "Reason" ev.Reject.Reason false
      let msg := msg.AddData "Description" ev.Reject.Description false
      some msg
  else if d.EventType = "failed" then
    match d.FailedEvent with
    | none => none
    | some ev =>
      let msg := msg.AddData "Message ID" ev.ID true
      let msg := msg.AddData "Recipient" ev.Recipient true
      let msg := msg.AddData "Subject" ev.Message.Headers.Subject true
      let msg := msg.AddData "Severity" ev.Severity true
      let msg := msg.AddData "DeliveryStatus" ev.DeliveryStatus.Message false
      let msg := msg.AddData "Reason" ev.Reason false
      some msg
  else
    some msg

/-- The constant `http.StatusNotAcceptable`. -/
def StatusNotAcceptable : Nat := 406

/-- What `handler` does that is visible outside it, in the order in which it happens. -/
inductive Effect where
  /-- the call `slog.Error(msg, "error", err)` -/
  | logError (msg : String) (err : Option Error)
  /-- the call `w.WriteHeader(statusCode)` -/
  | WriteHeader (statusCode : Nat)
  /-- the call `mailgundata.NewMailGunData(raw)` -/
  | NewMailGunData (raw : Bytes)
  /-- the call `newSlackMessageFromMailGunData(d)` -/
  | newSlackMessage (d : Data)
  /-- the call `msg.Send(url)` -/
  | Send (msg : Message) (url : String)
  /-- a run-time failure: the dereference of a nil pointer -/
  | crash
deriving DecidableEq, Repr

/-- The surroundings of `handler`: the two package variables, `encoding/json`, and the
outcome of `msg.Send(url)` (`none` is a nil error). -/
structure Env where
  mailGunAPIKey : Bytes
  slackWebhookURL : String
  json : Json
  Send : Message → String → Option Error

/-- The handler of the webhook, on the request body `body`: the list of its effects. -/
def handler (env : Env) (body : Bytes) : List Effect :=
  match env.json.DecodePayload body with
  | .error err =>
    [.logError "could not decode message from MailGun" (some err),
     .WriteHeader StatusNotAcceptable]
  | .ok payload =>
    match VerifyWebhookSignature env.mailGunAPIKey payload.Signature with
    | (_, some err) =>
      [.logError "could not verify message from MailGun" (some err),
       .WriteHeader StatusNotAcceptable]
    | (verified, none) =>
      if !verified then
        [.WriteHeader StatusNotAcceptable]
      else
        match NewMailGunData env.json payload.EventData with
        | (data, err) =>
          .NewMailGunData payload.EventData ::
          if data = Data.zero then
            [.logError "could not decode message from MailGun" err,
             .WriteHeader StatusNotAcceptable]
          else
            .newSlackMessage data ::
            match newSlackMessageFromMailGunData data with
            | none => [.crash]
            | some msg =>
              .Send msg env.slackWebhookURL ::
              match env.Send msg env.slackWebhookURL with
              | some err => [.logError "could not send message to Slack" (some err)]
              | none => []

/-- The status the inbound caller receives (`net/http`): the code of the first
`WriteHeader`, 200 when the handler returns without having written one, and no response
(`none`) when it fails before. -/
def responseStatus : List Effect → Option Nat
  | [] => some 200
  | .WriteHeader statusCode :: _ => some statusCode
  | .crash :: _ => none
  | _ :: rest => responseStatus rest

/-- Whether an effect is a call of `msg.Send`. -/
def Effect.isSend : Effect → Bool
  | .Send _ _ => true
  | _ => false

/-- Whether an effect is a call of `w.WriteHeader`. -/
def Effect.isWriteHeader : Effect → Bool
  | .WriteHeader _ => true
  | _ => false

/-! ## Words of the specification -/

/-- The specification's `sign`: the hexadecimal encoding of
`HMAC-SHA256(secret, timestamp || token)`. -/
def sign (secret timestamp token : Bytes) : Bytes :=
  EncodeToString (hmacSHA256 secret (timestamp ++ token))

/-- A hexadecimal digit: one of the bytes of `0-9`, `a-f`, `A-F`. -/
def isHexDigit (c : Nat) : Prop := c ∈ ascii "0123456789abcdefABCDEF"

instance (c : Nat) : Decidable (isHexDigit c) := by unfold isHexDigit; infer_instance

/-- Valid hexadecimal: an even number of bytes, every one a hex digit. -/
def isHexString (s : Bytes) : Prop := s.length % 2 = 0 ∧ ∀ c ∈ s, isHexDigit c

instance (s : Bytes) : Decidable (isHexString s) := by unfold isHexString; infer_instance

/-- The byte sequence `s` with bit `k` of the byte at position `i` flipped. -/
def flipBit (s : Bytes) (i k : Nat) : Bytes := s.set i (s.getD i 0 ^^^ 2 ^ k)

/-! ## Sample data -/

def sampleKey : Bytes := ascii "key-3ax6xnjp29jd6fds4gc373sgvjxteol0"

def sampleTimestamp : Bytes := ascii "1529006854"

def sampleToken : Bytes := ascii "a8ce0edb2dd8301dee6c2405235584e45aa91d1e9f979f3de0"

/-- The hex signature of `sampleTimestamp` and `sampleToken` under `sampleKey`. -/
def sampleHex : Bytes := ascii "b63c0701c4f4b614f272106a1b367c5c3369bcdca664ae73ebd52787e45eef07"

def sampleSignature : Signature :=
  { TimeStamp := sampleTimestamp, Token := sampleToken, Signature := sampleHex }

/-- The body of a webhook POST that carries `sig` and the event `eventData`. -/
def bodyOf (sig : Signature) (eventData : Bytes) : Bytes :=
  ascii "\x7b\"signature\":\x7b\"timestamp\":\"" ++ sig.TimeStamp ++
  ascii "\",\"token\":\"" ++ sig.Token ++
  ascii "\",\"signature\":\"" ++ sig.Signature ++
  ascii "\"\x7d,\"event-data\":" ++ eventData ++ ascii "\x7d"

/-- An event without an `event` field. -/
def emptyEvent : Bytes := ascii "\x7b\x7d"

/-- An event of a type that is not modelled. -/
def clickedEvent : Bytes := ascii "\x7b\"event\":\"clicked\"\x7d"

/-- Bytes that are not JSON. -/
def brokenEvent : Bytes := ascii "\x7b\"event\":"

/-- An event whose `event` field is a number. -/
def mistypedEvent : Bytes := ascii "\x7b\"event\":5\x7d"

/-- A `rejected` event whose `id` is a number. -/
def rejectedMistyped : Bytes := ascii "\x7b\"event\":\"rejected\",\"id\":5\x7d"

/-- A `failed` event whose `severity` is a number. -/
def failedMistyped : Bytes := ascii "\x7b\"event\":\"failed\",\"severity\":5\x7d"

/-- A `failed` event without a recipient, a message and a delivery status. -/
def failedNoRecipient : Bytes :=
  ascii "\x7b\"event\":\"failed\",\"id\":\"G9Bn5sl1TC6nu79C8C0bwg\",\"severity\":\"permanent\",\"reason\":\"suppress-bounce\"\x7d"

/-- The `events.Failed` that `json.Unmarshal` fills from `failedNoRecipient`: a field that
is absent from the input keeps its zero value. -/
def failedNoRecipientEvent : Failed :=
  { ID := "G9Bn5sl1TC6nu79C8C0bwg", Recipient := "",
    Message := { Headers := { To := "", Subject := "" } },
    Severity := "permanent", DeliveryStatus := { Message := "" }, Reason := "suppress-bounce" }

/-- A rejected event as decoded, with an empty reject description. -/
def sampleRejected : Rejected :=
  { ID := "OMTXvM3oQ6-RJm6AqRTbJw",
    Reject := { Reason := "Sandbox subdomains are for test purposes only", Description := "" },
    Message := { Headers := { To := "alice@example.com", Subject := "Test reject webhook" } } }

/-- A failed event as decoded. -/
def sampleFailed : Failed :=
  { ID := "G9Bn5sl1TC6nu79C8C0bwg", Recipient := "alice@example.com",
    Message := { Headers := { To := "alice@example.com", Subject := "Test permanent_fail" } },
    Severity := "permanent", DeliveryStatus := { Message := "No Such User Here" },
    Reason := "suppress-bounce" }

/-- What `encoding/json` answers on the sample inputs; every other input is answered with
an error here. -/
def sampleJson : Json where
  DecodePayload body :=
    if body = bodyOf sampleSignature emptyEvent then
      .ok { Signature := sampleSignature, EventData := emptyEvent }
    else if body = bodyOf sampleSignature clickedEvent then
      .ok { Signature := sampleSignature, EventData := clickedEvent }
    else if body = bodyOf sampleSignature mistypedEvent then
      .ok { Signature := sampleSignature, EventData := mistypedEvent }
    else if body = bodyOf sampleSignature rejectedMistyped then
      .ok { Signature := sampleSignature, EventData := rejectedMistyped }
    else if body = bodyOf sampleSignature failedMistyped then
      .ok { Signature := sampleSignature, EventData := failedMistyped }
    else if body = bodyOf sampleSignature failedNoRecipient then
      .ok { Signature := sampleSignature, EventData := failedNoRecipient }
    else
      .error (.json "unexpected end of JSON input")
  UnmarshalEventName raw :=
    if raw = emptyEvent then .ok { Name := "" }
    else if raw = clickedEvent then .ok { Name := "clicked" }
    else if raw = mistypedEvent then
      .error (.json "cannot unmarshal number into Go struct field EventName.event of type string")
    else if raw = rejectedMistyped then .ok { Name := "rejected" }
    else if raw = failedMistyped then .ok { Name := "failed" }
    else if raw = failedNoRecipient then .ok { Name := "failed" }
    else .error (.json "unexpected end of JSON input")
  UnmarshalRejected raw :=
    if raw = rejectedMistyped then
      .error (.json "cannot unmarshal number into Go struct field Rejected.id of type string")
    else .error (.json "unexpected end of JSON input")
  UnmarshalFailed raw :=
    if raw = failedMistyped then
      .error (.json "cannot unmarshal number into Go struct field Failed.severity of type string")
    else if raw = failedNoRecipient then .ok failedNoRecipientEvent
    else .error (.json "unexpected end of JSON input")

def sampleEnv : Env where
  mailGunAPIKey := sampleKey
  slackWebhookURL := "https://hooks.slack.com/services/T0/B0/X0"
  json := sampleJson
  Send _ _ := none

/-- The surroundings `sampleEnv` with a `Send` that always fails. -/
def sampleEnvSendFails : Env :=
  { sampleEnv with Send := fun _ _ => some (.send "connection refused") }

/-! # Theorems -/

/-! ## Helper lemmas: bytes, hex and comparison -/

theorem lor_eq_zero_iff (a b : Nat) : a ||| b = 0 ↔ a = 0 ∧ b = 0 := by
  constructor
  · intro h
    have key : ∀ i, (a.testBit i || b.testBit i) = false := by
      intro i
      rw [← Nat.testBit_or, h, Nat.zero_testBit]
    constructor
    · apply Nat.eq_of_testBit_eq
      intro i
      have := key i
      simp only [Bool.or_eq_false_iff] at this
      simp [this.1]
    · apply Nat.eq_of_testBit_eq
      intro i
      have := key i
      simp only [Bool.or_eq_false_iff] at this
      simp [this.2]
  · rintro ⟨rfl, rfl⟩
    rfl

theorem bytesOfWord_lt (w b : Nat) (hb : b ∈ bytesOfWord w) : b < 256 := by
  simp only [bytesOfWord, List.mem_cons, List.mem_singleton, List.not_mem_nil, or_false] at hb
  rcases hb with h | h | h | h <;> subst h <;> exact Nat.mod_lt _ (by norm_num)

theorem sha256_length (msg : Bytes) : (sha256 msg).length = 32 := by
  simp [sha256, bytesOfWord]

theorem sha256_lt (msg : Bytes) (b : Nat) (hb : b ∈ sha256 msg) : b < 256 := by
  simp only [sha256, List.mem_append] at hb
  rcases hb with ((((((h | h) | h) | h) | h) | h) | h) | h <;> exact bytesOfWord_lt _ _ h

theorem hmacSHA256_length (key msg : Bytes) : (hmacSHA256 key msg).length = 32 :=
  sha256_length _

theorem hmacSHA256_lt (key msg : Bytes) (b : Nat) (hb : b ∈ hmacSHA256 key msg) : b < 256 :=
  sha256_lt _ b hb

set_option maxRecDepth 100000 in
theorem hex_byte_roundtrip : ∀ v < 256,
    fromHexChar (hextable.getD (v >>> 4) 0) = some (v / 16) ∧
    fromHexChar (hextable.getD (v &&& 0x0f) 0) = some (v % 16) ∧
    ((v / 16) <<< 4) ||| (v % 16) = v := by
  decide

theorem DecodeString_EncodeToString (bs : Bytes) (h : ∀ b ∈ bs, b < 256) :
    DecodeString (EncodeToString bs) = .ok bs := by
  induction bs with
  | nil => rfl
  | cons v rest ih =>
    obtain ⟨h1, h2, h3⟩ := hex_byte_roundtrip v (h v (List.mem_cons_self _ _))
    have ih2 := ih (fun b hb => h b (List.mem_cons_of_mem _ hb))
    simp only [EncodeToString, DecodeString, h1, h2, ih2, h3]

theorem fromHexChar_lt (c a : Nat) (h : fromHexChar c = some a) : a < 16 := by
  unfold fromHexChar at h
  split_ifs at h <;> simp at h <;> omega

theorem nibbles_lt : ∀ a < 16, ∀ b < 16, ((a <<< 4) ||| b) < 256 := by decide

theorem DecodeString_lt (s d : Bytes) (h : DecodeString s = .ok d) : ∀ b ∈ d, b < 256 := by
  induction s using DecodeString.induct generalizing d with
  | case1 => simp [DecodeString] at h; subst h; simp
  | case2 p hp => simp [DecodeString, hp] at h
  | case3 p a hp => simp [DecodeString, hp] at h
  | case4 p q rest hp => simp [DecodeString, hp] at h
  | case5 p q rest a hp hq => simp [DecodeString, hp, hq] at h
  | case6 p q rest a hp b hq e he ih => simp [DecodeString, hp, hq, he] at h
  | case7 p q rest a hp b hq bs hbs ih =>
    simp [DecodeString, hp, hq, hbs] at h
    subst h
    intro x hx
    rcases List.mem_cons.1 hx with rfl | hx
    · exact nibbles_lt a (fromHexChar_lt _ _ hp) b (fromHexChar_lt _ _ hq)
    · exact ih bs hbs x hx

theorem xorFold_eq_zero_iff (x : Bytes) : ∀ (v : Nat) (y : Bytes), x.length = y.length →
    (xorFold v x y = 0 ↔ v = 0 ∧ x = y) := by
  induction x with
  | nil =>
    intro v y hlen
    cases y with
    | nil => simp [xorFold]
    | cons b y => simp at hlen
  | cons a x ih =>
    intro v y hlen
    cases y with
    | nil => simp at hlen
    | cons b y =>
      have hl : x.length = y.length := by simpa using hlen
      simp only [xorFold, ih _ y hl, lor_eq_zero_iff, Nat.xor_eq_zero, List.cons.injEq]
      tauto

theorem xorFold_lt (x : Bytes) : ∀ (v : Nat) (y : Bytes), v < 256 →
    (∀ b ∈ x, b < 256) → (∀ b ∈ y, b < 256) → xorFold v x y < 256 := by
  induction x with
  | nil => intro v y hv _ _; cases y <;> simpa [xorFold] using hv
  | cons a x ih =>
    intro v y hv hx hy
    cases y with
    | nil => simpa [xorFold] using hv
    | cons b y =>
      simp only [xorFold]
      apply ih
      · have ha : a < 2 ^ 8 := hx a (List.mem_cons_self _ _)
        have hb : b < 2 ^ 8 := hy b (List.mem_cons_self _ _)
        have hv2 : v < 2 ^ 8 := hv
        exact Nat.or_lt_two_pow hv2 (Nat.xor_lt_two_pow ha hb)
      · exact fun c hc => hx c (List.mem_cons_of_mem _ hc)
      · exact fun c hc => hy c (List.mem_cons_of_mem _ hc)

set_option maxRecDepth 100000 in
theorem ConstantTimeByteEq_zero : ∀ v < 256, (ConstantTimeByteEq v 0 = 1 ↔ v = 0) := by
  decide

theorem ConstantTimeCompare_eq_one_iff (x y : Bytes) (hx : ∀ b ∈ x, b < 256)
    (hy : ∀ b ∈ y, b < 256) : ConstantTimeCompare x y = 1 ↔ x = y := by
  unfold ConstantTimeCompare
  by_cases hlen : x.length = y.length
  · simp only [hlen, ne_eq, not_true_eq_false, if_false]
    rw [ConstantTimeByteEq_zero _ (xorFold_lt x 0 y (by norm_num) hx hy),
      xorFold_eq_zero_iff x 0 y hlen]
    simp
  · have hne : x ≠ y := fun h => hlen (by rw [h])
    simp [hlen, hne]

/-- The result of `VerifyWebhookSignature` in closed form: a decode error is returned as it is,
and otherwise the decoded signature is compared with the MAC of `timestamp ++ token`. -/
theorem VerifyWebhookSignature_eq (apiKey : Bytes) (sig : Signature) :
    VerifyWebhookSignature apiKey sig =
      match DecodeString sig.Signature with
      | .error err => (false, some err)
      | .ok signature =>
        (decide (signature = hmacSHA256 apiKey (sig.TimeStamp ++ sig.Token)), none) := by
  have hmac := hmacSHA256_lt apiKey (sig.TimeStamp ++ sig.Token)
  have hlen32 := hmacSHA256_length apiKey (sig.TimeStamp ++ sig.Token)
  unfold VerifyWebhookSignature
  simp only [WriteString, hmacNew, Hmac.Sum]
  rw [List.nil_append, List.nil_append]
  generalize hmacSHA256 apiKey (sig.TimeStamp ++ sig.Token) = mac at hmac hlen32 ⊢
  cases hd : DecodeString sig.Signature with
  | error e => rfl
  | ok d =>
    have hiff := ConstantTimeCompare_eq_one_iff d mac (DecodeString_lt _ _ hd) hmac
    by_cases heq : d = mac
    · subst heq
      simp [hiff.2 rfl]
    · have h1 : ConstantTimeCompare d mac ≠ 1 := fun h => heq (hiff.1 h)
      by_cases hlen : mac.length = d.length
      · simp [hlen, heq, h1]
      · simp [hlen, heq]

theorem fromHexChar_isSome_iff (c : Nat) : (∃ v, fromHexChar c = some v) ↔ isHexDigit c := by
  unfold fromHexChar isHexDigit
  have hl : ascii "0123456789abcdefABCDEF" =
      [48, 49, 50, 51, 52, 53, 54, 55, 56, 57, 97, 98, 99, 100, 101, 102,
       65, 66, 67, 68, 69, 70] := by decide
  rw [hl]
  simp only [List.mem_cons, List.mem_singleton, List.not_mem_nil, or_false]
  split_ifs <;> simp <;> omega

theorem fromHexChar_eq_none_iff (c : Nat) : fromHexChar c = none ↔ ¬ isHexDigit c := by
  rw [← fromHexChar_isSome_iff]
  cases fromHexChar c <;> simp

theorem isHexString_of_DecodeString (s d : Bytes) (h : DecodeString s = .ok d) :
    isHexString s ∧ s.length = 2 * d.length := by
  induction s using DecodeString.induct generalizing d with
  | case1 => simp [DecodeString] at h; subst h; simp [isHexString]
  | case2 p hp => simp [DecodeString, hp] at h
  | case3 p a hp => simp [DecodeString, hp] at h
  | case4 p q rest hp => simp [DecodeString, hp] at h
  | case5 p q rest a hp hq => simp [DecodeString, hp, hq] at h
  | case6 p q rest a hp b hq e he ih => simp [DecodeString, hp, hq, he] at h
  | case7 p q rest a hp b hq bs hbs ih =>
    simp [DecodeString, hp, hq, hbs] at h
    subst h
    obtain ⟨⟨h1, h2⟩, h3⟩ := ih bs hbs
    refine ⟨⟨?_, ?_⟩, ?_⟩
    · simp only [List.length_cons]; omega
    · intro c hc
      rcases List.mem_cons.1 hc with rfl | hc
      · exact (fromHexChar_isSome_iff _).1 ⟨a, hp⟩
      rcases List.mem_cons.1 hc with rfl | hc
      · exact (fromHexChar_isSome_iff _).1 ⟨b, hq⟩
      · exact h2 c hc
    · simp only [List.length_cons]; omega

theorem DecodeString_of_isHexString (s : Bytes) (h : isHexString s) :
    ∃ d, DecodeString s = .ok d := by
  induction s using DecodeString.induct with
  | case1 => exact ⟨[], rfl⟩
  | case2 p hp => simp [isHexString] at h
  | case3 p a hp => simp [isHexString] at h
  | case4 p q rest hp =>
    exact absurd (h.2 p (List.mem_cons_self _ _)) ((fromHexChar_eq_none_iff p).1 hp)
  | case5 p q rest a hp hq =>
    exact absurd (h.2 q (List.mem_cons_of_mem _ (List.mem_cons_self _ _)))
      ((fromHexChar_eq_none_iff q).1 hq)
  | case6 p q rest a hp b hq e he ih =>
    have hr : isHexString rest := by
      refine ⟨?_, fun c hc => h.2 c (List.mem_cons_of_mem _ (List.mem_cons_of_mem _ hc))⟩
      have := h.1
      simp only [List.length_cons] at this
      omega
    obtain ⟨d, hd⟩ := ih hr
    rw [he] at hd
    cases hd
  | case7 p q rest a hp b hq bs hbs ih =>
    exact ⟨((a <<< 4) ||| b) :: bs, by simp [DecodeString, hp, hq, hbs]⟩

/-- Whenever `hex.DecodeString` fails, `VerifyWebhookSignature` returns that error. -/
theorem VerifyWebhookSignature_of_decode_error (apiKey : Bytes) (sig : Signature) (err : Error)
    (h : DecodeString sig.Signature = .error err) :
    VerifyWebhookSignature apiKey sig = (false, some err) := by
  rw [VerifyWebhookSignature_eq, h]

/-- Whenever `hex.DecodeString` succeeds, the result is the comparison with the MAC. -/
theorem VerifyWebhookSignature_of_decode_ok (apiKey : Bytes) (sig : Signature) (d : Bytes)
    (h : DecodeString sig.Signature = .ok d) :
    VerifyWebhookSignature apiKey sig =
      (decide (d = hmacSHA256 apiKey (sig.TimeStamp ++ sig.Token)), none) := by
  rw [VerifyWebhookSignature_eq, h]

/-- The signature produced by `sign` verifies. -/
theorem VerifyWebhookSignature_sign (S timestamp token : Bytes) :
    VerifyWebhookSignature S ⟨timestamp, token, sign S timestamp token⟩ = (true, none) := by
  have hd : DecodeString (sign S timestamp token) = .ok (hmacSHA256 S (timestamp ++ token)) :=
    DecodeString_EncodeToString _ (hmacSHA256_lt _ _)
  rw [VerifyWebhookSignature_of_decode_ok S _ _ hd]
  simp

theorem pack_nibbles (a b : Nat) (hb : b < 16) : (a <<< 4) ||| b = 16 * a + b := by
  have h := Nat.mul_add_lt_is_or (i := 4) (b := b) (by simpa using hb) a
  rw [Nat.shiftLeft_eq, Nat.mul_comm]
  exact h.symm

theorem pack_nibbles_inj (a b a2 b2 : Nat) (hb : b < 16) (hb2 : b2 < 16) :
    ((a <<< 4) ||| b) = ((a2 <<< 4) ||| b2) ↔ a = a2 ∧ b = b2 := by
  rw [pack_nibbles a b hb, pack_nibbles a2 b2 hb2]
  omega

theorem DecodeString_set_invalid (s d : Bytes) (hd : DecodeString s = .ok d) (i : Nat)
    (hi : i < s.length) (c2 : Nat) (hc : fromHexChar c2 = none) :
    DecodeString (s.set i c2) = .error (.InvalidByteError c2) := by
  induction s using DecodeString.induct generalizing d i with
  | case1 => simp at hi
  | case2 p hp => simp [DecodeString, hp] at hd
  | case3 p a hp => simp [DecodeString, hp] at hd
  | case4 p q rest hp => simp [DecodeString, hp] at hd
  | case5 p q rest a hp hq => simp [DecodeString, hp, hq] at hd
  | case6 p q rest a hp b hq e he ih => simp [DecodeString, hp, hq, he] at hd
  | case7 p q rest a hp b hq bs hbs ih =>
    match i, hi with
    | 0, _ => simp [DecodeString, hc]
    | 1, _ => simp [DecodeString, hp, hc]
    | n + 2, hn =>
      have hn2 : n < rest.length := by simpa using hn
      simp [DecodeString, hp, hq, ih bs hbs n hn2]

theorem DecodeString_set_valid (s d : Bytes) (hd : DecodeString s = .ok d) (i : Nat)
    (hi : i < s.length) (c2 v2 : Nat) (hc : fromHexChar c2 = some v2) :
    ∃ d2, DecodeString (s.set i c2) = .ok d2 ∧
      (d2 = d ↔ fromHexChar (s.getD i 0) = some v2) := by
  induction s using DecodeString.induct generalizing d i with
  | case1 => simp at hi
  | case2 p hp => simp [DecodeString, hp] at hd
  | case3 p a hp => simp [DecodeString, hp] at hd
  | case4 p q rest hp => simp [DecodeString, hp] at hd
  | case5 p q rest a hp hq => simp [DecodeString, hp, hq] at hd
  | case6 p q rest a hp b hq e he ih => simp [DecodeString, hp, hq, he] at hd
  | case7 p q rest a hp b hq bs hbs ih =>
    simp [DecodeString, hp, hq, hbs] at hd
    subst hd
    have ha := fromHexChar_lt _ _ hp
    have hb := fromHexChar_lt _ _ hq
    have hv := fromHexChar_lt _ _ hc
    match i, hi with
    | 0, _ =>
      refine ⟨((v2 <<< 4) ||| b) :: bs, by simp [DecodeString, hc, hq, hbs], ?_⟩
      simp [hp, pack_nibbles_inj v2 b a b hb hb]
      exact eq_comm
    | 1, _ =>
      refine ⟨((a <<< 4) ||| v2) :: bs, by simp [DecodeString, hp, hc, hbs], ?_⟩
      simp [hq, pack_nibbles_inj a v2 a b hv hb]
      exact eq_comm
    | n + 2, hn =>
      have hn2 : n < rest.length := by simpa using hn
      obtain ⟨d2, h1, h2⟩ := ih bs hbs n hn2
      refine ⟨((a <<< 4) ||| b) :: d2, by simp [DecodeString, hp, hq, h1], ?_⟩
      simp [h2]

theorem EncodeToString_length (bs : Bytes) : (EncodeToString bs).length = 2 * bs.length := by
  induction bs with
  | nil => rfl
  | cons v rest ih => simp only [EncodeToString, List.length_cons, ih]; omega

set_option maxRecDepth 100000 in
theorem hextable_getD_mem : ∀ v < 256,
    hextable.getD (v >>> 4) 0 ∈ hextable ∧ hextable.getD (v &&& 0x0f) 0 ∈ hextable := by
  decide

theorem EncodeToString_mem (bs : Bytes) (h : ∀ b ∈ bs, b < 256) :
    ∀ c ∈ EncodeToString bs, c ∈ hextable := by
  induction bs with
  | nil => simp [EncodeToString]
  | cons v rest ih =>
    intro c hc
    have hv := hextable_getD_mem v (h v (List.mem_cons_self _ _))
    simp only [EncodeToString, List.mem_cons] at hc
    rcases hc with rfl | rfl | hc
    · exact hv.1
    · exact hv.2
    · exact ih (fun b hb => h b (List.mem_cons_of_mem _ hb)) c hc

set_option maxRecDepth 100000 in
/-- Flipping bit `k` of a lower-case hex digit `c`: the result is again a hex digit of the
same value exactly when the flip changes the case of a letter. -/
theorem flip_hex_digit : ∀ c ∈ hextable, ∀ k < 8,
    (fromHexChar (c ^^^ 2 ^ k) = fromHexChar c ↔ (k = 5 ∧ 97 ≤ c)) := by
  decide

/-! ## Helper lemmas: decoder and handler -/

/-- Every error path of `NewMailGunData` returns the zero `Data`. -/
theorem NewMailGunData_error_zero (json : Json) (raw : Bytes)
    (h : (NewMailGunData json raw).2 ≠ none) : (NewMailGunData json raw).1 = Data.zero := by
  unfold NewMailGunData at h ⊢
  cases hn : json.UnmarshalEventName raw with
  | error e => rfl
  | ok ev =>
    simp only [hn] at h ⊢
    by_cases h1 : ev.Name = "rejected"
    · simp only [h1, if_true] at h ⊢
      cases hr : json.UnmarshalRejected raw with
      | error e => rfl
      | ok event => simp [hr] at h
    · by_cases h2 : ev.Name = "failed"
      · simp only [h2, if_true] at h ⊢
        cases hf : json.UnmarshalFailed raw with
        | error e => rfl
        | ok event => simp [hf] at h
      · simp [h1, h2] at h

/-- On a successful decode the event pointer that the builder reads is not nil. -/
theorem newSlackMessage_of_NewMailGunData (json : Json) (raw : Bytes)
    (h : (NewMailGunData json raw).2 = none) :
    ∃ msg, newSlackMessageFromMailGunData (NewMailGunData json raw).1 = some msg := by
  unfold NewMailGunData at h ⊢
  cases hn : json.UnmarshalEventName raw with
  | error e => simp [hn] at h
  | ok ev =>
    simp only [hn] at h ⊢
    by_cases h1 : ev.Name = "rejected"
    · simp only [h1, if_true] at h ⊢
      cases hr : json.UnmarshalRejected raw with
      | error e => simp [hr] at h
      | ok event => simp [newSlackMessageFromMailGunData]
    · by_cases h2 : ev.Name = "failed"
      · simp only [h2, if_true] at h ⊢
        cases hf : json.UnmarshalFailed raw with
        | error e => simp [hf] at h
        | ok event => simp [newSlackMessageFromMailGunData]
      · simp [h1, h2, newSlackMessageFromMailGunData]

/-- The effects of `handler` in closed form, by the outcome of each stage. -/
theorem handler_eq (env : Env) (body : Bytes) :
    handler env body =
      match env.json.DecodePayload body with
      | .error err =>
        [.logError "could not decode message from MailGun" (some err), .WriteHeader 406]
      | .ok payload =>
        match VerifyWebhookSignature env.mailGunAPIKey payload.Signature with
        | (_, some err) =>
          [.logError "could not verify message from MailGun" (some err), .WriteHeader 406]
        | (false, none) => [.WriteHeader 406]
        | (true, none) =>
          if (NewMailGunData env.json payload.EventData).1 = Data.zero then
            [.NewMailGunData payload.EventData,
             .logError "could not decode message from MailGun"
               (NewMailGunData env.json payload.EventData).2,
             .WriteHeader 406]
          else
            match newSlackMessageFromMailGunData (NewMailGunData env.json payload.EventData).1 with
            | none =>
              [.NewMailGunData payload.EventData,
               .newSlackMessage (NewMailGunData env.json payload.EventData).1, .crash]
            | some msg =>
              [.NewMailGunData payload.EventData,
               .newSlackMessage (NewMailGunData env.json payload.EventData).1,
               .Send msg env.slackWebhookURL] ++
              match env.Send msg env.slackWebhookURL with
              | some err => [.logError "could not send message to Slack" (some err)]
              | none => [] := by
  unfold handler
  cases env.json.DecodePayload body with
  | error err => rfl
  | ok payload =>
    simp only
    generalize VerifyWebhookSignature env.mailGunAPIKey payload.Signature = r
    generalize NewMailGunData env.json payload.EventData = nd
    obtain ⟨verified, err⟩ := r
    obtain ⟨data, derr⟩ := nd
    cases verified <;> cases err <;> try rfl
    simp only [Bool.not_true, Bool.false_eq_true, if_false, StatusNotAcceptable]
    by_cases hz : data = Data.zero
    · simp [hz]
    · simp only [hz, if_false]
      cases newSlackMessageFromMailGunData data with
      | none => rfl
      | some msg => rfl

/-! ## The signature verifier -/

/-- C1: for every API key `S`, timestamp and token, `VerifyWebhookSignature` returns
`(true, nil)` on the signature whose hex string is the hexadecimal encoding of
`HMAC-SHA256(S, timestamp || token)`, the timestamp bytes followed by the token bytes with
no separator. -/
theorem verify_sign_roundtrip (S timestamp token : Bytes) :
    VerifyWebhookSignature S
      { TimeStamp := timestamp, Token := token,
        Signature := EncodeToString (hmacSHA256 S (timestamp ++ token)) } = (true, none) :=
  VerifyWebhookSignature_sign S timestamp token

/-- C2: `VerifyWebhookSignature` returns `verified = true` only on exact match: then the
error is nil and the signature hex-decodes to exactly the bytes of
`HMAC-SHA256(apiKey, timestamp || token)`. -/
theorem verified_only_on_exact_match (apiKey : Bytes) (sig : Signature)
    (h : (VerifyWebhookSignature apiKey sig).1 = true) :
    (VerifyWebhookSignature apiKey sig).2 = none ∧
    DecodeString sig.Signature = .ok (hmacSHA256 apiKey (sig.TimeStamp ++ sig.Token)) := by
  rw [VerifyWebhookSignature_eq] at h ⊢
  cases hd : DecodeString sig.Signature with
  | error e => simp [hd] at h
  | ok d =>
    simp only [hd, decide_eq_true_eq] at h
    subst h
    exact ⟨rfl, rfl⟩

set_option maxRecDepth 1000000 in
theorem verified_only_on_exact_match_witness :
    (VerifyWebhookSignature sampleKey sampleSignature).1 = true ∧
    (VerifyWebhookSignature sampleKey sampleSignature).2 = none ∧
    DecodeString sampleSignature.Signature =
      .ok (hmacSHA256 sampleKey (sampleSignature.TimeStamp ++ sampleSignature.Token)) :=
  ⟨by decide, verified_only_on_exact_match sampleKey sampleSignature (by decide)⟩

/-- C3: for every API key, timestamp and token and every signature string that is not valid
hexadecimal (odd length, or a byte that is not a hex digit), `VerifyWebhookSignature`
returns the decode error of `hex.DecodeString` with `verified = false`. -/
theorem malformed_hex_is_decode_error (apiKey : Bytes) (sig : Signature)
    (h : ¬ isHexString sig.Signature) :
    ∃ err, DecodeString sig.Signature = .error err ∧
      VerifyWebhookSignature apiKey sig = (false, some err) := by
  cases hd : DecodeString sig.Signature with
  | error e => exact ⟨e, rfl, VerifyWebhookSignature_of_decode_error apiKey sig e hd⟩
  | ok d => exact absurd (isHexString_of_DecodeString _ _ hd).1 h

theorem malformed_hex_is_decode_error_witness :
    ¬ isHexString (ascii "b63c0701c4f4zz") ∧
    ∃ err, DecodeString (ascii "b63c0701c4f4zz") = .error err ∧
      VerifyWebhookSignature sampleKey
        { TimeStamp := sampleTimestamp, Token := sampleToken,
          Signature := ascii "b63c0701c4f4zz" } = (false, some err) :=
  ⟨by decide,
   malformed_hex_is_decode_error sampleKey
     { TimeStamp := sampleTimestamp, Token := sampleToken, Signature := ascii "b63c0701c4f4zz" }
     (by decide)⟩

set_option maxRecDepth 1000000 in
/-- C4, as stated, fails: flipping bit 5 of the first digit `b` of the sample signature gives
`B`, and the signature still verifies; flipping bit 6 gives the byte 34, which is no hex
digit, and the result is a decode error and not `(false, nil)`. -/
theorem flip_bit_counterexample :
    sign sampleKey sampleTimestamp sampleToken = sampleHex ∧
    flipBit sampleHex 0 5 =
      ascii "B63c0701c4f4b614f272106a1b367c5c3369bcdca664ae73ebd52787e45eef07" ∧
    VerifyWebhookSignature sampleKey
      { TimeStamp := sampleTimestamp, Token := sampleToken,
        Signature := flipBit (sign sampleKey sampleTimestamp sampleToken) 0 5 } = (true, none) ∧
    VerifyWebhookSignature sampleKey
      { TimeStamp := sampleTimestamp, Token := sampleToken,
        Signature := flipBit (sign sampleKey sampleTimestamp sampleToken) 0 6 } =
      (false, some (.InvalidByteError 34)) := by
  decide

/-- C4, amended: flipping bit `k` of the byte at position `i` of the valid signature hex
string makes `VerifyWebhookSignature` return a decode error when the flipped byte is no
longer a hex digit, `(true, nil)` when the flip only changes the case of a letter digit
(bit 5 of `a` to `f`), and `(false, nil)` in every other case. -/
theorem flip_bit_of_signature (S timestamp token : Bytes) (i k : Nat) (hi : i < 64)
    (hk : k < 8) :
    VerifyWebhookSignature S
      { TimeStamp := timestamp, Token := token,
        Signature := flipBit (sign S timestamp token) i k } =
      if ¬ isHexDigit ((sign S timestamp token).getD i 0 ^^^ 2 ^ k) then
        (false, some (.InvalidByteError ((sign S timestamp token).getD i 0 ^^^ 2 ^ k)))
      else if k = 5 ∧ 97 ≤ (sign S timestamp token).getD i 0 then (true, none)
      else (false, none) := by
  have hmac := hmacSHA256_lt S (timestamp ++ token)
  have hlen := hmacSHA256_length S (timestamp ++ token)
  have hd : DecodeString (sign S timestamp token) = .ok (hmacSHA256 S (timestamp ++ token)) :=
    DecodeString_EncodeToString _ hmac
  have hslen : (sign S timestamp token).length = 64 := by
    rw [sign, EncodeToString_length, hlen]
  have hmem : (sign S timestamp token).getD i 0 ∈ hextable := by
    apply EncodeToString_mem _ hmac
    rw [List.getD_eq_getElem _ _ (by rw [hslen]; exact hi)]
    exact List.getElem_mem _
  have hflip := flip_hex_digit _ hmem k hk
  generalize sign S timestamp token = s at *
  generalize hc : s.getD i 0 = c at *
  unfold flipBit
  rw [hc]
  cases hv : fromHexChar (c ^^^ 2 ^ k) with
  | none =>
    have hnot : ¬ isHexDigit (c ^^^ 2 ^ k) := (fromHexChar_eq_none_iff _).1 hv
    rw [if_pos hnot]
    exact VerifyWebhookSignature_of_decode_error _ _ _
      (DecodeString_set_invalid s _ hd i (by omega) _ hv)
  | some v2 =>
    have hyes : isHexDigit (c ^^^ 2 ^ k) := (fromHexChar_isSome_iff _).1 ⟨v2, hv⟩
    rw [if_neg (not_not.2 hyes)]
    obtain ⟨d2, hd2, hiff⟩ := DecodeString_set_valid s _ hd i (by omega) _ v2 hv
    rw [hc] at hiff
    rw [VerifyWebhookSignature_of_decode_ok _ _ d2 hd2]
    rw [hv] at hflip
    by_cases hcase : k = 5 ∧ 97 ≤ c
    · rw [if_pos hcase]
      have : d2 = hmacSHA256 S (timestamp ++ token) := hiff.2 (hflip.2 hcase).symm
      simp [this]
    · rw [if_neg hcase]
      have : d2 ≠ hmacSHA256 S (timestamp ++ token) :=
        fun h => hcase (hflip.1 (hiff.1 h).symm)
      simp [this]

set_option maxRecDepth 1000000 in
theorem flip_bit_of_signature_witness :
    VerifyWebhookSignature sampleKey
      { TimeStamp := sampleTimestamp, Token := sampleToken,
        Signature := flipBit (sign sampleKey sampleTimestamp sampleToken) 1 0 } =
      (false, none) :=
  (flip_bit_of_signature sampleKey sampleTimestamp sampleToken 1 0 (by decide)
    (by decide)).trans (by decide)

/-- C5: for every API key, timestamp and token and every valid hex signature string whose
decoded byte length differs from the length of the HMAC-SHA256 digest, which is 32 bytes,
`VerifyWebhookSignature` returns `(false, nil)`. -/
theorem wrong_length_not_verified (apiKey : Bytes) (sig : Signature) (d : Bytes)
    (hd : DecodeString sig.Signature = .ok d) (hl : d.length ≠ 32) :
    (hmacSHA256 apiKey (sig.TimeStamp ++ sig.Token)).length = 32 ∧
    VerifyWebhookSignature apiKey sig = (false, none) := by
  have hlen := hmacSHA256_length apiKey (sig.TimeStamp ++ sig.Token)
  refine ⟨hlen, ?_⟩
  rw [VerifyWebhookSignature_of_decode_ok apiKey sig d hd]
  have : d ≠ hmacSHA256 apiKey (sig.TimeStamp ++ sig.Token) := fun h => hl (by rw [h, hlen])
  simp [this]

theorem wrong_length_not_verified_witness :
    DecodeString (ascii "b63c0701") = .ok [0xb6, 0x3c, 0x07, 0x01] ∧
    [0xb6, 0x3c, 0x07, 0x01].length ≠ 32 ∧
    (hmacSHA256 sampleKey (sampleTimestamp ++ sampleToken)).length = 32 ∧
    VerifyWebhookSignature sampleKey
      { TimeStamp := sampleTimestamp, Token := sampleToken,
        Signature := ascii "b63c0701" } = (false, none) :=
  ⟨by decide, by decide,
   wrong_length_not_verified sampleKey
     { TimeStamp := sampleTimestamp, Token := sampleToken, Signature := ascii "b63c0701" }
     [0xb6, 0x3c, 0x07, 0x01] (by decide) (by decide)⟩

set_option maxRecDepth 1000000 in
/-- C6, as stated, fails: with the timestamp, the token and the signature hex all empty the
result is `(false, nil)`, without an error; and with an empty timestamp and the matching
signature the result is `(true, nil)`. -/
theorem empty_fields_counterexample :
    VerifyWebhookSignature sampleKey { TimeStamp := [], Token := [], Signature := [] } =
      (false, none) ∧
    VerifyWebhookSignature sampleKey
      { TimeStamp := [], Token := sampleToken,
        Signature := ascii "3818e73f944cc199b30acbe5908eae1ca17d40b489f0ad868c431ba7d5b9699e" } =
      (true, none) := by
  decide

/-- C6, amended: `VerifyWebhookSignature` reports an error exactly when the signature hex
is not valid hexadecimal; an empty timestamp or token is not an error, and an empty
signature hex gives `(false, nil)`. -/
theorem error_iff_malformed_hex (apiKey : Bytes) (sig : Signature) :
    ((VerifyWebhookSignature apiKey sig).2 ≠ none ↔ ¬ isHexString sig.Signature) ∧
    VerifyWebhookSignature apiKey
      { TimeStamp := sig.TimeStamp, Token := sig.Token, Signature := [] } = (false, none) := by
  constructor
  · cases hd : DecodeString sig.Signature with
    | error e =>
      rw [VerifyWebhookSignature_of_decode_error apiKey sig e hd]
      have hn : ¬ isHexString sig.Signature := by
        intro hs
        obtain ⟨d, hd2⟩ := DecodeString_of_isHexString _ hs
        rw [hd] at hd2
        cases hd2
      simp [hn]
    | ok d =>
      rw [VerifyWebhookSignature_of_decode_ok apiKey sig d hd]
      simp [(isHexString_of_DecodeString _ _ hd).1]
  · have hlen := hmacSHA256_length apiKey (sig.TimeStamp ++ sig.Token)
    rw [VerifyWebhookSignature_of_decode_ok apiKey
      { TimeStamp := sig.TimeStamp, Token := sig.Token, Signature := [] } [] rfl]
    have : ([] : Bytes) ≠ hmacSHA256 apiKey (sig.TimeStamp ++ sig.Token) := by
      intro h
      rw [← h] at hlen
      simp at hlen
    simp [this]

/-! ## The decoder and the pipeline -/

/-- C7: if the payload fails to decode, or `VerifyWebhookSignature` returns an error or
`verified = false`, or `NewMailGunData` returns a non-nil error, then `handler` responds
with HTTP 406, builds no Slack message and calls no `Send`; on a verification failure
`NewMailGunData` is not invoked; and a message is built only from a request whose signature
verified with `(true, nil)` and whose event decoded with a nil error. -/
theorem handler_rejects (env : Env) (body : Bytes) :
    (((∃ err, env.json.DecodePayload body = .error err) ∨
      (∃ payload, env.json.DecodePayload body = .ok payload ∧
        ((VerifyWebhookSignature env.mailGunAPIKey payload.Signature).2 ≠ none ∨
         (VerifyWebhookSignature env.mailGunAPIKey payload.Signature).1 = false ∨
         (NewMailGunData env.json payload.EventData).2 ≠ none))) →
      responseStatus (handler env body) = some 406 ∧
      .WriteHeader 406 ∈ handler env body ∧
      (∀ d, .newSlackMessage d ∉ handler env body) ∧
      (∀ msg url, .Send msg url ∉ handler env body)) ∧
    ((∃ payload, env.json.DecodePayload body = .ok payload ∧
        VerifyWebhookSignature env.mailGunAPIKey payload.Signature ≠ (true, none)) →
      ∀ raw, .NewMailGunData raw ∉ handler env body) ∧
    (∀ d, .newSlackMessage d ∈ handler env body →
      ∃ payload, env.json.DecodePayload body = .ok payload ∧
        VerifyWebhookSignature env.mailGunAPIKey payload.Signature = (true, none) ∧
        NewMailGunData env.json payload.EventData = (d, none)) := by
  rw [handler_eq]
  cases hp : env.json.DecodePayload body with
  | error err => simp [responseStatus]
  | ok payload =>
    have hz := NewMailGunData_error_zero env.json payload.EventData
    rcases hr : VerifyWebhookSignature env.mailGunAPIKey payload.Signature with ⟨verified, verr⟩
    rcases hnd : NewMailGunData env.json payload.EventData with ⟨data, derr⟩
    rw [hnd] at hz
    simp only [Except.ok.injEq, exists_eq_left', hr, hnd]
    cases verified <;> cases verr <;> try simp [responseStatus]
    by_cases hzero : data = Data.zero
    · simp [hzero, responseStatus]
    · have hnil : derr = none := by
        by_contra hne
        exact hzero (hz hne)
      subst hnil
      simp only [hzero, if_false]
      cases newSlackMessageFromMailGunData data with
      | none => simp
      | some msg =>
        dsimp only
        rcases hs : env.Send msg env.slackWebhookURL with _ | err <;> simp

set_option maxRecDepth 1000000 in
theorem handler_rejects_witness :
    responseStatus (handler sampleEnv (bodyOf sampleSignature mistypedEvent)) = some 406 ∧
    .WriteHeader 406 ∈ handler sampleEnv (bodyOf sampleSignature mistypedEvent) ∧
    (∀ d, .newSlackMessage d ∉ handler sampleEnv (bodyOf sampleSignature mistypedEvent)) ∧
    (∀ msg url, .Send msg url ∉ handler sampleEnv (bodyOf sampleSignature mistypedEvent)) :=
  (handler_rejects sampleEnv (bodyOf sampleSignature mistypedEvent)).1
    (Or.inr ⟨{ Signature := sampleSignature, EventData := mistypedEvent }, by decide,
      Or.inr (Or.inr (by decide))⟩)

set_option maxRecDepth 1000000 in
/-- C8: the code breaks the claim on the sample request, which carries a valid signature and
the event `{}`: the signature verifies, `NewMailGunData` returns a nil error with the event
type `""`, and yet `handler` logs a decode failure with a nil error, answers 406, builds no
message and calls no `Send`. -/
theorem handler_rejects_decoded_empty_event :
    sampleJson.DecodePayload (bodyOf sampleSignature emptyEvent) =
      .ok { Signature := sampleSignature, EventData := emptyEvent } ∧
    VerifyWebhookSignature sampleKey sampleSignature = (true, none) ∧
    NewMailGunData sampleJson emptyEvent =
      ({ EventType := "", RejectedEvent := none, FailedEvent := none }, none) ∧
    handler sampleEnv (bodyOf sampleSignature emptyEvent) =
      [.NewMailGunData emptyEvent,
       .logError "could not decode message from MailGun" none,
       .WriteHeader 406] ∧
    responseStatus (handler sampleEnv (bodyOf sampleSignature emptyEvent)) = some 406 ∧
    (handler sampleEnv (bodyOf sampleSignature emptyEvent)).any Effect.isSend = false := by
  decide

/-- On every verified request for which `NewMailGunData` returns a nil error and an event
type other than `""`, `handler` builds the Slack message and hands it to `Send`, writes no
status, and the response is 200. -/
theorem handler_delivers (env : Env) (body : Bytes) (payload : Payload)
    (hp : env.json.DecodePayload body = .ok payload)
    (hv : VerifyWebhookSignature env.mailGunAPIKey payload.Signature = (true, none))
    (hn : (NewMailGunData env.json payload.EventData).2 = none)
    (he : (NewMailGunData env.json payload.EventData).1.EventType ≠ "") :
    ∃ msg, newSlackMessageFromMailGunData (NewMailGunData env.json payload.EventData).1 =
        some msg ∧
      .newSlackMessage (NewMailGunData env.json payload.EventData).1 ∈ handler env body ∧
      .Send msg env.slackWebhookURL ∈ handler env body ∧
      (∀ statusCode, .WriteHeader statusCode ∉ handler env body) ∧
      responseStatus (handler env body) = some 200 := by
  obtain ⟨msg, hmsg⟩ := newSlackMessage_of_NewMailGunData env.json payload.EventData hn
  have hzero : (NewMailGunData env.json payload.EventData).1 ≠ Data.zero := by
    intro h
    rw [h] at he
    exact he rfl
  refine ⟨msg, hmsg, ?_⟩
  rw [handler_eq, hp]
  simp only [hv, hzero, if_false, hmsg]
  cases env.Send msg env.slackWebhookURL with
  | none => simp [responseStatus]
  | some err => simp [responseStatus]

/-- C9: for every raw input whose minimal parse succeeds with an event type other than
`"rejected"` and `"failed"`, `NewMailGunData` returns a nil error and a `Data` whose
`EventType` is that event type and whose `RejectedEvent` and `FailedEvent` are both nil. -/
theorem NewMailGunData_unhandled (json : Json) (raw : Bytes) (eventName : EventName)
    (h : json.UnmarshalEventName raw = .ok eventName)
    (hr : eventName.Name ≠ "rejected") (hf : eventName.Name ≠ "failed") :
    NewMailGunData json raw =
      ({ EventType := eventName.Name, RejectedEvent := none, FailedEvent := none }, none) := by
  simp [NewMailGunData, h, hr, hf]

theorem NewMailGunData_unhandled_witness :
    NewMailGunData sampleJson clickedEvent =
      ({ EventType := "clicked", RejectedEvent := none, FailedEvent := none }, none) :=
  NewMailGunData_unhandled sampleJson clickedEvent { Name := "clicked" }
    (by decide) (by decide) (by decide)

/-- C10: for every raw input on which the minimal parse of the event type fails,
`NewMailGunData` returns exactly `ErrUnrecognizedEvent` together with the zero-valued
`Data`. -/
theorem NewMailGunData_unrecognized (json : Json) (raw : Bytes) (err : Error)
    (h : json.UnmarshalEventName raw = .error err) :
    NewMailGunData json raw =
      ({ EventType := "", RejectedEvent := none, FailedEvent := none },
       some .ErrUnrecognizedEvent) := by
  simp [NewMailGunData, h, Data.zero]

theorem NewMailGunData_unrecognized_witness :
    NewMailGunData sampleJson brokenEvent =
      ({ EventType := "", RejectedEvent := none, FailedEvent := none },
       some .ErrUnrecognizedEvent) :=
  NewMailGunData_unrecognized sampleJson brokenEvent (.json "unexpected end of JSON input")
    (by decide)

/-! ## Helper lemmas: the outcomes of the handler -/

/-- On success `NewMailGunData` returns the event type that the minimal parse read. -/
theorem NewMailGunData_ok_EventType (json : Json) (raw : Bytes) (eventName : EventName)
    (h : json.UnmarshalEventName raw = .ok eventName)
    (hn : (NewMailGunData json raw).2 = none) :
    (NewMailGunData json raw).1.EventType = eventName.Name := by
  unfold NewMailGunData at hn ⊢
  simp only [h] at hn ⊢
  by_cases h1 : eventName.Name = "rejected"
  · simp only [h1, if_true] at hn ⊢
    cases hr : json.UnmarshalRejected raw with
    | error e => simp [hr] at hn
    | ok event => rfl
  · by_cases h2 : eventName.Name = "failed"
    · simp only [h2, if_true] at hn ⊢
      cases hf : json.UnmarshalFailed raw with
      | error e => simp [hf] at hn
      | ok event => simp
    · simp [h1, h2]

/-- The effects of `handler` on a verified request whose decoded `Data` is the zero value. -/
theorem handler_of_zero (env : Env) (body : Bytes) (payload : Payload)
    (hp : env.json.DecodePayload body = .ok payload)
    (hv : VerifyWebhookSignature env.mailGunAPIKey payload.Signature = (true, none))
    (hz : (NewMailGunData env.json payload.EventData).1 = Data.zero) :
    handler env body =
      [.NewMailGunData payload.EventData,
       .logError "could not decode message from MailGun"
         (NewMailGunData env.json payload.EventData).2,
       .WriteHeader 406] := by
  rw [handler_eq, hp]
  simp only [hv, hz, if_true]

/-- The effects of `handler` on a verified request for which a message is built. -/
theorem handler_of_message (env : Env) (body : Bytes) (payload : Payload) (msg : Message)
    (hp : env.json.DecodePayload body = .ok payload)
    (hv : VerifyWebhookSignature env.mailGunAPIKey payload.Signature = (true, none))
    (hz : (NewMailGunData env.json payload.EventData).1 ≠ Data.zero)
    (hm : newSlackMessageFromMailGunData (NewMailGunData env.json payload.EventData).1 =
      some msg) :
    handler env body =
      [.NewMailGunData payload.EventData,
       .newSlackMessage (NewMailGunData env.json payload.EventData).1,
       .Send msg env.slackWebhookURL] ++
      match env.Send msg env.slackWebhookURL with
      | some err => [.logError "could not send message to Slack" (some err)]
      | none => [] := by
  rw [handler_eq, hp]
  rcases hs : env.Send msg env.slackWebhookURL with _ | err <;> simp [hv, hz, hm, hs]

/-- A request for which `Send` is called decoded, verified and produced a message. -/
theorem handler_send_inv (env : Env) (body : Bytes)
    (h : ∃ msg url, .Send msg url ∈ handler env body) :
    ∃ payload msg, env.json.DecodePayload body = .ok payload ∧
      VerifyWebhookSignature env.mailGunAPIKey payload.Signature = (true, none) ∧
      (NewMailGunData env.json payload.EventData).1 ≠ Data.zero ∧
      newSlackMessageFromMailGunData (NewMailGunData env.json payload.EventData).1 =
        some msg := by
  obtain ⟨m, url, hmem⟩ := h
  rw [handler_eq] at hmem
  cases hp : env.json.DecodePayload body with
  | error err => simp [hp] at hmem
  | ok payload =>
    rw [hp] at hmem
    dsimp only at hmem
    rcases hr : VerifyWebhookSignature env.mailGunAPIKey payload.Signature with ⟨verified, verr⟩
    rw [hr] at hmem
    cases verified <;> cases verr <;> simp at hmem
    by_cases hz : (NewMailGunData env.json payload.EventData).1 = Data.zero
    · simp [hz] at hmem
    · cases hm : newSlackMessageFromMailGunData (NewMailGunData env.json payload.EventData).1 with
      | none => simp [hz, hm] at hmem
      | some msg => exact ⟨payload, msg, rfl, hr, hz, hm⟩

/-! ## Parse errors of the known events -/

theorem ToLower_rejected : ToLower "rejected" = "rejected" := by decide

theorem ToLower_failed : ToLower "failed" = "failed" := by decide

/-- C11: for every raw input whose event type is `"rejected"` (respectively `"failed"`) and
whose full parse against the Rejected (respectively Failed) shape fails with cause `c`,
`NewMailGunData` returns the zero `Data` and an `ErrParseEvent` whose `Name` is `"rejected"`
(respectively `"failed"`) and whose `Err` is `c`. -/
theorem NewMailGunData_parse_error (json : Json) (raw : Bytes) (eventName : EventName)
    (c : Error) (h : json.UnmarshalEventName raw = .ok eventName) :
    (eventName.Name = "rejected" → json.UnmarshalRejected raw = .error c →
      NewMailGunData json raw =
        ({ EventType := "", RejectedEvent := none, FailedEvent := none },
         some (.ErrParseEvent "rejected" c))) ∧
    (eventName.Name = "failed" → json.UnmarshalFailed raw = .error c →
      NewMailGunData json raw =
        ({ EventType := "", RejectedEvent := none, FailedEvent := none },
         some (.ErrParseEvent "failed" c))) := by
  constructor
  · intro hn hc
    simp [NewMailGunData, h, hn, hc, Data.zero, EventName.GetName, ToLower_rejected]
  · intro hn hc
    simp [NewMailGunData, h, hn, hc, Data.zero, EventName.GetName, ToLower_failed]

theorem NewMailGunData_parse_error_witness :
    NewMailGunData sampleJson rejectedMistyped =
      ({ EventType := "", RejectedEvent := none, FailedEvent := none },
       some (.ErrParseEvent "rejected"
         (.json "cannot unmarshal number into Go struct field Rejected.id of type string"))) ∧
    NewMailGunData sampleJson failedMistyped =
      ({ EventType := "", RejectedEvent := none, FailedEvent := none },
       some (.ErrParseEvent "failed"
         (.json "cannot unmarshal number into Go struct field Failed.severity of type string"))) :=
  ⟨(NewMailGunData_parse_error sampleJson rejectedMistyped { Name := "rejected" } _
      (by decide)).1 (by decide) (by decide),
   (NewMailGunData_parse_error sampleJson failedMistyped { Name := "failed" } _
      (by decide)).2 (by decide) (by decide)⟩

set_option maxRecDepth 1000000 in
/-- C12, as stated, fails: the sample `failed` event has no recipient, and `json.Unmarshal`
fills an `events.Failed` with an empty `Recipient` without an error; `NewMailGunData`
returns a nil error, and the verified request that carries the event is delivered. -/
theorem missing_recipient_counterexample :
    sampleJson.UnmarshalFailed failedNoRecipient = .ok failedNoRecipientEvent ∧
    failedNoRecipientEvent.Recipient = "" ∧
    NewMailGunData sampleJson failedNoRecipient =
      ({ EventType := "failed", RejectedEvent := none,
         FailedEvent := some failedNoRecipientEvent }, none) ∧
    VerifyWebhookSignature sampleKey sampleSignature = (true, none) ∧
    responseStatus (handler sampleEnv (bodyOf sampleSignature failedNoRecipient)) = some 200 ∧
    (handler sampleEnv (bodyOf sampleSignature failedNoRecipient)).any Effect.isSend = true := by
  decide

/-- C12, amended: for every raw event whose event type is `"rejected"` or `"failed"`,
`NewMailGunData` returns an `ErrParseEvent` whose `Name` is that event type exactly when
`json.Unmarshal` of the event against that shape returns an error, and then a verified
request that carries the event is answered with 406 and nothing is sent; when
`json.Unmarshal` returns no error, `NewMailGunData` returns the decoded event with a nil
error and the verified request is delivered. -/
theorem parse_error_iff_unmarshal_fails (env : Env) (body : Bytes) (payload : Payload)
    (eventName : EventName)
    (hp : env.json.DecodePayload body = .ok payload)
    (hv : VerifyWebhookSignature env.mailGunAPIKey payload.Signature = (true, none))
    (hn : env.json.UnmarshalEventName payload.EventData = .ok eventName)
    (hk : eventName.Name = "rejected" ∨ eventName.Name = "failed") :
    ((∃ c, (NewMailGunData env.json payload.EventData).2 =
        some (.ErrParseEvent eventName.Name c)) ↔
      ((eventName.Name = "rejected" ∧
          ∃ c, env.json.UnmarshalRejected payload.EventData = .error c) ∨
       (eventName.Name = "failed" ∧
          ∃ c, env.json.UnmarshalFailed payload.EventData = .error c))) ∧
    (∀ c, (eventName.Name = "rejected" ∧
            env.json.UnmarshalRejected payload.EventData = .error c) ∨
          (eventName.Name = "failed" ∧
            env.json.UnmarshalFailed payload.EventData = .error c) →
      NewMailGunData env.json payload.EventData =
        ({ EventType := "", RejectedEvent := none, FailedEvent := none },
         some (.ErrParseEvent eventName.Name c)) ∧
      responseStatus (handler env body) = some 406 ∧
      ∀ msg url, .Send msg url ∉ handler env body) ∧
    (∀ event, eventName.Name = "rejected" →
      env.json.UnmarshalRejected payload.EventData = .ok event →
      NewMailGunData env.json payload.EventData =
        ({ EventType := "rejected", RejectedEvent := some event, FailedEvent := none }, none) ∧
      responseStatus (handler env body) = some 200 ∧
      ∃ msg, .Send msg env.slackWebhookURL ∈ handler env body) ∧
    (∀ event, eventName.Name = "failed" →
      env.json.UnmarshalFailed payload.EventData = .ok event →
      NewMailGunData env.json payload.EventData =
        ({ EventType := "failed", RejectedEvent := none, FailedEvent := some event }, none) ∧
      responseStatus (handler env body) = some 200 ∧
      ∃ msg, .Send msg env.slackWebhookURL ∈ handler env body) := by
  have hdeliver : (NewMailGunData env.json payload.EventData).2 = none →
      responseStatus (handler env body) = some 200 ∧
      ∃ msg, .Send msg env.slackWebhookURL ∈ handler env body := by
    intro he
    obtain ⟨msg, hm⟩ := newSlackMessage_of_NewMailGunData env.json payload.EventData he
    have hz : (NewMailGunData env.json payload.EventData).1 ≠ Data.zero := by
      intro h0
      have ht := NewMailGunData_ok_EventType env.json payload.EventData eventName hn he
      rw [h0] at ht
      rcases hk with hk | hk <;> rw [hk] at ht <;> simp [Data.zero] at ht
    rw [handler_of_message env body payload msg hp hv hz hm]
    refine ⟨?_, msg, by simp⟩
    rcases env.Send msg env.slackWebhookURL with _ | err <;> simp [responseStatus]
  have hreject : (NewMailGunData env.json payload.EventData).2 ≠ none →
      responseStatus (handler env body) = some 406 ∧
      ∀ msg url, .Send msg url ∉ handler env body := by
    intro he
    rw [handler_of_zero env body payload hp hv (NewMailGunData_error_zero _ _ he)]
    simp [responseStatus]
  refine ⟨?_, ?_, ?_, ?_⟩
  · rcases hk with hk | hk
    · cases hr : env.json.UnmarshalRejected payload.EventData with
      | error e =>
        simp [NewMailGunData, hn, hk, hr, EventName.GetName, ToLower_rejected]
      | ok event => simp [NewMailGunData, hn, hk, hr]
    · cases hf : env.json.UnmarshalFailed payload.EventData with
      | error e =>
        simp [NewMailGunData, hn, hk, hf, EventName.GetName, ToLower_failed]
      | ok event => simp [NewMailGunData, hn, hk, hf]
  · intro c hc
    have hres : NewMailGunData env.json payload.EventData =
        ({ EventType := "", RejectedEvent := none, FailedEvent := none },
         some (.ErrParseEvent eventName.Name c)) := by
      rcases hc with ⟨hname, hc⟩ | ⟨hname, hc⟩
      · simp [NewMailGunData, hn, hname, hc, Data.zero, EventName.GetName, ToLower_rejected]
      · simp [NewMailGunData, hn, hname, hc, Data.zero, EventName.GetName, ToLower_failed]
    exact ⟨hres, hreject (by rw [hres]; simp)⟩
  · intro event hname hev
    have hres : NewMailGunData env.json payload.EventData =
        ({ EventType := "rejected", RejectedEvent := some event, FailedEvent := none },
         none) := by
      simp [NewMailGunData, hn, hname, hev]
    exact ⟨hres, hdeliver (by rw [hres])⟩
  · intro event hname hev
    have hres : NewMailGunData env.json payload.EventData =
        ({ EventType := "failed", RejectedEvent := none, FailedEvent := some event },
         none) := by
      simp [NewMailGunData, hn, hname, hev]
    exact ⟨hres, hdeliver (by rw [hres])⟩

set_option maxRecDepth 1000000 in
theorem parse_error_iff_unmarshal_fails_witness :
    (NewMailGunData sampleJson failedNoRecipient =
        ({ EventType := "failed", RejectedEvent := none,
           FailedEvent := some failedNoRecipientEvent }, none) ∧
      responseStatus (handler sampleEnv (bodyOf sampleSignature failedNoRecipient)) =
        some 200 ∧
      ∃ msg, .Send msg sampleEnv.slackWebhookURL ∈
        handler sampleEnv (bodyOf sampleSignature failedNoRecipient)) ∧
    (NewMailGunData sampleJson failedMistyped =
        ({ EventType := "", RejectedEvent := none, FailedEvent := none },
         some (.ErrParseEvent "failed"
           (.json "cannot unmarshal number into Go struct field Failed.severity of type string"))) ∧
      responseStatus (handler sampleEnv (bodyOf sampleSignature failedMistyped)) = some 406 ∧
      ∀ msg url, .Send msg url ∉ handler sampleEnv (bodyOf sampleSignature failedMistyped)) :=
  ⟨(parse_error_iff_unmarshal_fails sampleEnv (bodyOf sampleSignature failedNoRecipient)
      { Signature := sampleSignature, EventData := failedNoRecipient } { Name := "failed" }
      (by decide) (by decide) (by decide) (by decide)).2.2.2 failedNoRecipientEvent
      (by decide) (by decide),
   (parse_error_iff_unmarshal_fails sampleEnv (bodyOf sampleSignature failedMistyped)
      { Signature := sampleSignature, EventData := failedMistyped } { Name := "failed" }
      (by decide) (by decide) (by decide) (by decide)).2.1 _ (Or.inr ⟨by decide, by decide⟩)⟩

/-! ## The message builder -/

/-- C13, as stated, fails: on the `Data` whose event type is `"rejected"` and whose
`RejectedEvent` is nil, `newSlackMessageFromMailGunData` dereferences the nil pointer and
returns no message. -/
theorem nil_event_counterexample :
    newSlackMessageFromMailGunData
      { EventType := "rejected", RejectedEvent := none, FailedEvent := none } = none := by
  decide

/-- C13, amended: for every `Data` record `d` whose event pointer for its event type is not
nil, `newSlackMessageFromMailGunData d` returns a message with the title `"MailGun Error"`
whose first field is the error field with label `"Event"`, value `d.EventType` and
`required = true`, and all of whose further fields are data fields. -/
theorem error_field_first (d : Data)
    (hr : d.EventType = "rejected" → d.RejectedEvent ≠ none)
    (hf : d.EventType = "failed" → d.FailedEvent ≠ none) :
    ∃ msg rest, newSlackMessageFromMailGunData d = some msg ∧
      msg.title = "MailGun Error" ∧
      msg.fields =
        { kind := .error, label := "Event", value := d.EventType, required := true } :: rest ∧
      (∀ f ∈ rest, f.kind = .data) ∧
      msg.errorFields =
        [{ kind := .error, label := "Event", value := d.EventType, required := true }] := by
  unfold newSlackMessageFromMailGunData
  by_cases h1 : d.EventType = "rejected"
  · cases hre : d.RejectedEvent with
    | none => exact absurd hre (hr h1)
    | some ev =>
      simp [h1, NewMessage, Message.AddError, Message.AddData, Message.errorFields]
  · by_cases h2 : d.EventType = "failed"
    · cases hfe : d.FailedEvent with
      | none => exact absurd hfe (hf h2)
      | some ev =>
        simp [h2, NewMessage, Message.AddError, Message.AddData, Message.errorFields]
    · simp [h1, h2, NewMessage, Message.AddError, Message.errorFields]

theorem error_field_first_witness :
    ∃ msg rest,
      newSlackMessageFromMailGunData
        { EventType := "failed", RejectedEvent := none, FailedEvent := some sampleFailed } =
        some msg ∧
      msg.title = "MailGun Error" ∧
      msg.fields =
        { kind := .error, label := "Event", value := "failed", required := true } :: rest ∧
      (∀ f ∈ rest, f.kind = .data) ∧
      msg.errorFields =
        [{ kind := .error, label := "Event", value := "failed", required := true }] :=
  error_field_first
    { EventType := "failed", RejectedEvent := none, FailedEvent := some sampleFailed }
    (by decide) (by decide)

/-- C14: for every Rejected record, the data fields emitted by
`newSlackMessageFromMailGunData` are, in this order: Message ID = event id (required),
Subject = message header subject (required), To = message header to (required),
Reason = reject reason (optional), Description = reject description (optional); all five are
present whatever their values. -/
theorem rejected_data_fields (d : Data) (ev : Rejected)
    (ht : d.EventType = "rejected") (he : d.RejectedEvent = some ev) :
    ∃ msg, newSlackMessageFromMailGunData d = some msg ∧
      msg.dataFields =
        [{ kind := .data, label := "Message ID", value := ev.ID, required := true },
         { kind := .data, label := "Subject", value := ev.Message.Headers.Subject,
           required := true },
         { kind := .data, label := "To", value := ev.Message.Headers.To, required := true },
         { kind := .data, label := "Reason", value := ev.Reject.Reason, required := false },
         { kind := .data, label := "Description", value := ev.Reject.Description,
           required := false }] := by
  simp [newSlackMessageFromMailGunData, ht, he, NewMessage, Message.AddError,
    Message.AddData, Message.dataFields]

theorem rejected_data_fields_witness :
    ∃ msg,
      newSlackMessageFromMailGunData
        { EventType := "rejected", RejectedEvent := some sampleRejected,
          FailedEvent := none } = some msg ∧
      msg.dataFields =
        [{ kind := .data, label := "Message ID", value := "OMTXvM3oQ6-RJm6AqRTbJw",
           required := true },
         { kind := .data, label := "Subject", value := "Test reject webhook",
           required := true },
         { kind := .data, label := "To", value := "alice@example.com", required := true },
         { kind := .data, label := "Reason",
           value := "Sandbox subdomains are for test purposes only", required := false },
         { kind := .data, label := "Description", value := "", required := false }] :=
  rejected_data_fields
    { EventType := "rejected", RejectedEvent := some sampleRejected, FailedEvent := none }
    sampleRejected (by decide) (by decide)

/-- C15, as stated, fails: for the sample Rejected record the message has 6 fields, 1 error
field and 5 data fields, not 5 and 4. -/
theorem rejected_field_count_counterexample :
    (newSlackMessageFromMailGunData
      { EventType := "rejected", RejectedEvent := some sampleRejected,
        FailedEvent := none }).map (fun msg =>
          (msg.fields.length, msg.errorFields.length, msg.dataFields.length)) =
      some (6, 1, 5) := by
  decide

/-- C15, amended: for every Rejected record, `newSlackMessageFromMailGunData` emits exactly
6 fields in total: 1 error field and 5 data fields. -/
theorem rejected_field_count (d : Data) (ev : Rejected)
    (ht : d.EventType = "rejected") (he : d.RejectedEvent = some ev) :
    ∃ msg, newSlackMessageFromMailGunData d = some msg ∧
      msg.fields.length = 6 ∧ msg.errorFields.length = 1 ∧ msg.dataFields.length = 5 := by
  simp [newSlackMessageFromMailGunData, ht, he, NewMessage, Message.AddError,
    Message.AddData, Message.dataFields, Message.errorFields]

theorem rejected_field_count_witness :
    ∃ msg,
      newSlackMessageFromMailGunData
        { EventType := "rejected", RejectedEvent := some sampleRejected,
          FailedEvent := none } = some msg ∧
      msg.fields.length = 6 ∧ msg.errorFields.length = 1 ∧ msg.dataFields.length = 5 :=
  rejected_field_count
    { EventType := "rejected", RejectedEvent := some sampleRejected, FailedEvent := none }
    sampleRejected (by decide) (by decide)

/-- C16: for every Failed record, `newSlackMessageFromMailGunData` emits exactly 7 fields,
the error field and then 6 data fields in this order: Message ID = event id (required),
Recipient (required), Subject = message header subject (required), Severity (required),
DeliveryStatus = delivery status message (optional), Reason (optional). -/
theorem failed_fields (d : Data) (ev : Failed)
    (ht : d.EventType = "failed") (he : d.FailedEvent = some ev) :
    ∃ msg, newSlackMessageFromMailGunData d = some msg ∧
      msg.fields.length = 7 ∧
      msg.errorFields.length = 1 ∧
      msg.dataFields =
        [{ kind := .data, label := "Message ID", value := ev.ID, required := true },
         { kind := .data, label := "Recipient", value := ev.Recipient, required := true },
         { kind := .data, label := "Subject", value := ev.Message.Headers.Subject,
           required := true },
         { kind := .data, label := "Severity", value := ev.Severity, required := true },
         { kind := .data, label := "DeliveryStatus", value := ev.DeliveryStatus.Message,
           required := false },
         { kind := .data, label := "Reason", value := ev.Reason, required := false }] := by
  simp [newSlackMessageFromMailGunData, ht, he, NewMessage, Message.AddError,
    Message.AddData, Message.dataFields, Message.errorFields]

theorem failed_fields_witness :
    ∃ msg,
      newSlackMessageFromMailGunData
        { EventType := "failed", RejectedEvent := none, FailedEvent := some sampleFailed } =
        some msg ∧
      msg.fields.length = 7 ∧
      msg.errorFields.length = 1 ∧
      msg.dataFields =
        [{ kind := .data, label := "Message ID", value := "G9Bn5sl1TC6nu79C8C0bwg",
           required := true },
         { kind := .data, label := "Recipient", value := "alice@example.com",
           required := true },
         { kind := .data, label := "Subject", value := "Test permanent_fail",
           required := true },
         { kind := .data, label := "Severity", value := "permanent", required := true },
         { kind := .data, label := "DeliveryStatus", value := "No Such User Here",
           required := false },
         { kind := .data, label := "Reason", value := "suppress-bounce",
           required := false }] :=
  failed_fields
    { EventType := "failed", RejectedEvent := none, FailedEvent := some sampleFailed }
    sampleFailed (by decide) (by decide)

/-- C17: for every `Data` record whose event type is neither `"rejected"` nor `"failed"`,
`newSlackMessageFromMailGunData` emits no data field: the message has only the title and
the one error field that carries the event type. -/
theorem unhandled_only_error_field (d : Data)
    (hr : d.EventType ≠ "rejected") (hf : d.EventType ≠ "failed") :
    newSlackMessageFromMailGunData d =
      some { title := "MailGun Error",
             fields := [{ kind := .error, label := "Event", value := d.EventType,
                          required := true }] } ∧
    ∀ msg, newSlackMessageFromMailGunData d = some msg → msg.dataFields = [] := by
  have h : newSlackMessageFromMailGunData d =
      some { title := "MailGun Error",
             fields := [{ kind := .error, label := "Event", value := d.EventType,
                          required := true }] } := by
    simp [newSlackMessageFromMailGunData, hr, hf, NewMessage, Message.AddError]
  refine ⟨h, ?_⟩
  intro msg hm
  rw [h] at hm
  cases hm
  simp [Message.dataFields]

theorem unhandled_only_error_field_witness :
    newSlackMessageFromMailGunData
        { EventType := "clicked", RejectedEvent := none, FailedEvent := none } =
      some { title := "MailGun Error",
             fields := [{ kind := .error, label := "Event", value := "clicked",
                          required := true }] } ∧
    ∀ msg, newSlackMessageFromMailGunData
        { EventType := "clicked", RejectedEvent := none, FailedEvent := none } = some msg →
      msg.dataFields = [] :=
  unhandled_only_error_field
    { EventType := "clicked", RejectedEvent := none, FailedEvent := none }
    (by decide) (by decide)

/-! ## Delivery and the decoder invariant -/

/-- C18: for every request that reaches delivery, the response to the inbound caller is the
same whatever `Send` returns: the handler writes no status at all, so none after `Send`, the
response is 200, and `Send` is called exactly once. -/
theorem send_outcome_keeps_response (env : Env) (send2 : Message → String → Option Error)
    (body : Bytes) (h : ∃ msg url, .Send msg url ∈ handler env body) :
    responseStatus (handler { env with Send := send2 } body) =
      responseStatus (handler env body) ∧
    responseStatus (handler env body) = some 200 ∧
    (∀ statusCode, .WriteHeader statusCode ∉ handler env body) ∧
    ((handler env body).filter Effect.isSend).length = 1 ∧
    ((handler { env with Send := send2 } body).filter Effect.isSend).length = 1 := by
  obtain ⟨payload, msg, hp, hv, hz, hm⟩ := handler_send_inv env body h
  have h1 := handler_of_message env body payload msg hp hv hz hm
  have h2 := handler_of_message { env with Send := send2 } body payload msg hp hv hz hm
  rw [h1, h2]
  dsimp only
  rcases env.Send msg env.slackWebhookURL with _ | e1 <;>
    rcases send2 msg env.slackWebhookURL with _ | e2 <;>
    simp [responseStatus, Effect.isSend]

set_option maxRecDepth 1000000 in
theorem send_outcome_keeps_response_witness :
    responseStatus (handler sampleEnvSendFails (bodyOf sampleSignature clickedEvent)) =
      responseStatus (handler sampleEnv (bodyOf sampleSignature clickedEvent)) ∧
    responseStatus (handler sampleEnv (bodyOf sampleSignature clickedEvent)) = some 200 ∧
    (∀ statusCode, .WriteHeader statusCode ∉
      handler sampleEnv (bodyOf sampleSignature clickedEvent)) ∧
    ((handler sampleEnv (bodyOf sampleSignature clickedEvent)).filter Effect.isSend).length =
      1 ∧
    ((handler sampleEnvSendFails (bodyOf sampleSignature clickedEvent)).filter
      Effect.isSend).length = 1 :=
  send_outcome_keeps_response sampleEnv (fun _ _ => some (.send "connection refused"))
    (bodyOf sampleSignature clickedEvent)
    ⟨{ title := "MailGun Error",
       fields := [{ kind := .error, label := "Event", value := "clicked", required := true }] },
     "https://hooks.slack.com/services/T0/B0/X0", by decide⟩

/-- C20: for every raw input on which `NewMailGunData` returns a nil error, the returned
`Data` has a non-nil `RejectedEvent` exactly when its event type is `"rejected"`, a non-nil
`FailedEvent` exactly when its event type is `"failed"`, and never both; and
`newSlackMessageFromMailGunData` returns a message on it, without dereferencing a nil
pointer. -/
theorem decoder_output_invariant (json : Json) (raw : Bytes)
    (h : (NewMailGunData json raw).2 = none) :
    ((NewMailGunData json raw).1.RejectedEvent ≠ none ↔
      (NewMailGunData json raw).1.EventType = "rejected") ∧
    ((NewMailGunData json raw).1.FailedEvent ≠ none ↔
      (NewMailGunData json raw).1.EventType = "failed") ∧
    ¬ ((NewMailGunData json raw).1.RejectedEvent ≠ none ∧
       (NewMailGunData json raw).1.FailedEvent ≠ none) ∧
    ∃ msg, newSlackMessageFromMailGunData (NewMailGunData json raw).1 = some msg := by
  refine ⟨?_, ?_, ?_, newSlackMessage_of_NewMailGunData json raw h⟩ <;>
  · unfold NewMailGunData at h ⊢
    cases hn : json.UnmarshalEventName raw with
    | error e => simp [hn] at h
    | ok ev =>
      simp only [hn] at h ⊢
      by_cases h1 : ev.Name = "rejected"
      · simp only [h1, if_true] at h ⊢
        cases hr : json.UnmarshalRejected raw with
        | error e => simp [hr] at h
        | ok event => simp
      · by_cases h2 : ev.Name = "failed"
        · simp only [h2, if_true] at h ⊢
          cases hf : json.UnmarshalFailed raw with
          | error e => simp [hf] at h
          | ok event => simp
        · simp [h1, h2]

theorem decoder_output_invariant_witness :
    ((NewMailGunData sampleJson failedNoRecipient).1.RejectedEvent ≠ none ↔
      (NewMailGunData sampleJson failedNoRecipient).1.EventType = "rejected") ∧
    ((NewMailGunData sampleJson failedNoRecipient).1.FailedEvent ≠ none ↔
      (NewMailGunData sampleJson failedNoRecipient).1.EventType = "failed") ∧
    ¬ ((NewMailGunData sampleJson failedNoRecipient).1.RejectedEvent ≠ none ∧
       (NewMailGunData sampleJson failedNoRecipient).1.FailedEvent ≠ none) ∧
    ∃ msg, newSlackMessageFromMailGunData (NewMailGunData sampleJson failedNoRecipient).1 =
      some msg :=
  decoder_output_invariant sampleJson failedNoRecipient (by decide)

end Magsli
